import Mathlib

/-!
Verification of the task-assist core: status model (src/core/task.py,
src/core/work.py), storage layer (src/core/storage.py), due-date manager
(src/core/due_dates.py), scheduling engine (src/core/scheduling.py) and
the Google Tasks provider retry discipline (src/core/tasks_provider.py).

Datetimes are modelled as integer seconds since the epoch; a day is
86400 seconds and an hour 3600. Database rows are Lean structures, the
store is a pair of lists, and every mutation is explicit state passing.
Remote-provider and notifier side effects are recorded as an event list.
-/

namespace TaskAssist

/-- Canonical task statuses, from src/core/task.py (class TaskStatus). -/
inductive TaskStatus where
  | PENDING
  | PUBLISHED
  | TRACKED
  | COMPLETED
  deriving DecidableEq, Repr, Fintype

/-- String value of a status, mirroring the Python enum values
(`str(TaskStatus.X)` returns these). -/
def TaskStatus.str : TaskStatus → String
  | .PENDING => "Pending"
  | .PUBLISHED => "Published"
  | .TRACKED => "Tracked"
  | .COMPLETED => "Completed"

/-- Lower-casing of the ASCII strings used for statuses, standing in for
Python `value.strip().lower()` (statuses in this system carry no
surrounding whitespace). -/
def lowerAscii (s : String) : String :=
  String.mk (s.data.map Char.toLower)

/-- TaskStatus.from_string from src/core/task.py: normalize a status
string; unknown values default to PENDING. -/
def TaskStatus.from_string (value : String) : TaskStatus :=
  if value = "" then .PENDING
  else
    let normalized := lowerAscii value
    if normalized = "pending" then .PENDING
    else if normalized = "draft" then .PENDING
    else if normalized = "published" then .PUBLISHED
    else if normalized = "tracked" then .TRACKED
    else if normalized = "completed" then .COMPLETED
    else if normalized = "done" then .COMPLETED
    else if normalized = "needsaction" then .PUBLISHED
    else if normalized = "needs_action" then .PUBLISHED
    else .PENDING

/-- TaskStatus.to_google_tasks from src/core/task.py. -/
def TaskStatus.to_google_tasks : TaskStatus → String
  | .COMPLETED => "completed"
  | _ => "needsAction"

/-- can_transition from src/core/task.py: self-loops, any status to
COMPLETED, COMPLETED to PUBLISHED (re-open), and the explicit table
PENDING→PUBLISHED, PUBLISHED→TRACKED, TRACKED→PUBLISHED. -/
def can_transition (from_status to_status : TaskStatus) : Bool :=
  if from_status = to_status then true
  else if to_status = .COMPLETED then true
  else if from_status = .COMPLETED ∧ to_status = .PUBLISHED then true
  else
    match from_status with
    | .PENDING => to_status = .PUBLISHED
    | .PUBLISHED => to_status = .TRACKED
    | .TRACKED => to_status = .PUBLISHED
    | .COMPLETED => false

/-- Claim C9: can_transition(from, to) is true exactly for self-loops,
any status to Completed, Completed→Published, Pending→Published,
Published→Tracked, and Tracked→Published; every other pair is rejected. -/
theorem c9_can_transition_characterization :
    ∀ a b : TaskStatus,
      can_transition a b = true ↔
        (a = b ∨ b = .COMPLETED ∨
         (a = .COMPLETED ∧ b = .PUBLISHED) ∨
         (a = .PENDING ∧ b = .PUBLISHED) ∨
         (a = .PUBLISHED ∧ b = .TRACKED) ∨
         (a = .TRACKED ∧ b = .PUBLISHED)) := by
  decide

/-- Work status values, from src/core/work.py (class WorkStatus). -/
inductive WorkStatus where
  | DRAFT
  | PUBLISHED
  | COMPLETED
  deriving DecidableEq, Repr

/-- String value of a work status (`str(WorkStatus.X)`). -/
def WorkStatus.str : WorkStatus → String
  | .DRAFT => "Draft"
  | .PUBLISHED => "Published"
  | .COMPLETED => "Completed"

/-- Task row, from src/db.py (class Task). Datetimes are integer epoch
seconds. Status is stored as a string exactly as the database does. -/
structure Task where
  id : Nat
  work_id : Nat
  title : String
  status : String
  due_date : Option Int
  snooze_count : Nat
  calendar_event_id : Option String
  created_at : Int
  deriving DecidableEq, Repr

/-- Work row, from src/db.py (class Work). Tasks are related via
Task.work_id in the store. -/
structure Work where
  id : Nat
  title : String
  status : String
  deriving DecidableEq, Repr

/-- The database state: all work rows and all task rows. -/
structure Store where
  works : List Work
  tasks : List Task
  deriving DecidableEq, Repr

/-- Well-formed store: row ids are unique (primary keys). -/
def Store.wf (s : Store) : Prop :=
  (s.tasks.map Task.id).Nodup ∧ (s.works.map Work.id).Nodup

instance (s : Store) : Decidable s.wf := by
  unfold Store.wf; infer_instance

/-- get_task_by_id from src/core/storage.py (first row matching the id). -/
def get_task_by_id (s : Store) (task_id : Nat) : Option Task :=
  s.tasks.find? (fun t => t.id = task_id)

/-- get_work_by_id from src/core/storage.py. -/
def get_work_by_id (s : Store) (work_id : Nat) : Option Work :=
  s.works.find? (fun w => w.id = work_id)

/-- SQL `UPDATE tasks SET ... WHERE id = task_id`: apply a field update
to the row with the given id, leaving every other row unchanged. -/
def updateTaskRow (s : Store) (task_id : Nat) (f : Task → Task) : Store :=
  { s with tasks := s.tasks.map (fun t => if t.id = task_id then f t else t) }

/-- update_task_status from src/core/storage.py / db.py: set the status
string of the row with the given id. -/
def update_task_status (s : Store) (task_id : Nat) (new_status : TaskStatus) : Store :=
  updateTaskRow s task_id (fun t => { t with status := new_status.str })

/-- update_task_due_date from src/core/storage.py: set the due date of
the row with the given id. -/
def update_task_due_date (s : Store) (task_id : Nat) (due : Int) : Store :=
  updateTaskRow s task_id (fun t => { t with due_date := some due })

/-- update_task_calendar_event from src/core/storage.py / db.py. -/
def update_task_calendar_event (s : Store) (task_id : Nat) (event_id : Option String) : Store :=
  updateTaskRow s task_id (fun t => { t with calendar_event_id := event_id })

/-- increment_task_snooze from src/core/storage.py / db.py. -/
def increment_task_snooze (s : Store) (task_id : Nat) : Store :=
  updateTaskRow s task_id (fun t => { t with snooze_count := t.snooze_count + 1 })

/-- update_work_status from src/core/storage.py. For COMPLETED it goes
through db.complete_work, which also marks every task of the work as
Completed; for PUBLISHED through db.publish_work, which also publishes
every task; otherwise only the work row changes. -/
def update_work_status (s : Store) (work_id : Nat) (new_status : WorkStatus) : Store :=
  match new_status with
  | .PUBLISHED =>
      { works := s.works.map (fun w =>
          if w.id = work_id then { w with status := "Published" } else w),
        tasks := if (get_work_by_id s work_id).isSome then
            s.tasks.map (fun t =>
              if t.work_id = work_id then { t with status := "Published" } else t)
          else s.tasks }
  | .COMPLETED =>
      { works := s.works.map (fun w =>
          if w.id = work_id then { w with status := "Completed" } else w),
        tasks := if (get_work_by_id s work_id).isSome then
            s.tasks.map (fun t =>
              if t.work_id = work_id then { t with status := "Completed" } else t)
          else s.tasks }
  | .DRAFT =>
      { s with works := s.works.map (fun w =>
          if w.id = work_id then { w with status := "Draft" } else w) }

/-- SQL ordering key of src/core/storage.py list_tasks:
`due_date asc nullsfirst, created_at asc`. -/
def taskOrderLE (a b : Task) : Bool :=
  match a.due_date, b.due_date with
  | none, none => a.created_at ≤ b.created_at
  | none, some _ => true
  | some _, none => false
  | some x, some y => x < y ∨ (x = y ∧ a.created_at ≤ b.created_at)

/-- Stable insertion into a list sorted by a boolean order. -/
def insertLe (le : Task → Task → Bool) (x : Task) : List Task → List Task
  | [] => [x]
  | y :: ys => if le x y then x :: y :: ys else y :: insertLe le x ys

/-- Stable insertion sort by a boolean order. -/
def sortLe (le : Task → Task → Bool) : List Task → List Task
  | [] => []
  | x :: xs => insertLe le x (sortLe le xs)

/-- list_tasks from src/core/storage.py restricted to the arguments the
engine uses: filter by work id, optionally exclude rows whose status
string equals "Completed", and order by due date ascending with nulls
first, then by creation time ascending. -/
def list_tasks (s : Store) (work_id : Nat) (exclude_completed : Bool) : List Task :=
  sortLe taskOrderLE (s.tasks.filter (fun t =>
    t.work_id = work_id ∧ (¬ exclude_completed ∨ t.status ≠ "Completed")))

/-- A remote Google Tasks resource as seen through provider.get_task:
its status string and, when the resource carries one, a parsed due
timestamp. -/
structure RemoteTask where
  status : String
  due : Option Int
  deriving DecidableEq, Repr

/-- The remote provider and notifier environment the scheduling engine
runs against. Each field gives the outcome of the corresponding remote
call: getTask is the fetch result by mirror id, createTask the id the
provider returns for a creation (none on failure after retries),
updateOk whether an update/complete push to a mirror succeeds. -/
structure Env where
  getTask : String → Option RemoteTask
  createTask : (title : String) → (notes : String) → (due : Int) →
      (gstatus : String) → Option String
  updateOk : String → Bool

/-- Side effects of an engine run: remote calls and notifications. -/
inductive Event where
  | remoteCreate (title notes : String) (due : Int) (gstatus : String)
  | remoteComplete (mirror : String)
  | remoteDueUpdate (mirror : String) (ok : Bool)
  | notifScheduled (task_id : Nat)
  | notifTaskCompleted (task_id : Nat)
  | notifWorkCompleted (work_id : Nat)
  | notifSnoozeFollowup (task_id : Nat)
  deriving DecidableEq, Repr

/-- Whether an event is a remote-create call. -/
def Event.isCreate : Event → Bool
  | .remoteCreate _ _ _ _ => true
  | _ => false

/-- Whether an event is a work-completion notification. -/
def Event.isWorkCompleted : Event → Bool
  | .notifWorkCompleted _ => true
  | _ => false

/-- Whether an event is a snooze-followup advisory notification. -/
def Event.isSnoozeFollowup : Event → Bool
  | .notifSnoozeFollowup _ => true
  | _ => false

/-- Result of an engine operation: the returned boolean, the store after
the run, and the side effects in order. -/
structure RunResult where
  ok : Bool
  store : Store
  events : List Event
  deriving DecidableEq, Repr

/-- ensure_task_scheduled from src/core/scheduling.py. If the task has a
calendar_event_id and the remote fetch succeeds, no-op success. Otherwise
create a Google Task with the task's due date, defaulting to
`utcnow() + timedelta(days=1, hours=8)` when absent, persist the
returned id, and send a scheduled notification. -/
def ensure_task_scheduled (env : Env) (now : Int) (s : Store) (task_id : Nat)
    (work_title : Option String) : RunResult :=
  match get_task_by_id s task_id with
  | none => ⟨false, s, []⟩
  | some task =>
    if task.calendar_event_id.isSome ∧
        (env.getTask (task.calendar_event_id.getD "")).isSome then
      ⟨true, s, []⟩
    else
      let wtitle := work_title.getD
        (((get_work_by_id s task.work_id).map Work.title).getD "Unknown")
      let due := task.due_date.getD (now + 86400 + 8 * 3600)
      let st := if task.status = "" then TaskStatus.PUBLISHED
                else TaskStatus.from_string task.status
      let notes := "Work: " ++ wtitle
      let created := env.createTask task.title notes due st.to_google_tasks
      let ev0 := [Event.remoteCreate task.title notes due st.to_google_tasks]
      match created with
      | none => ⟨false, s, ev0⟩
      | some event_id =>
        let s1 := update_task_calendar_event s task_id (some event_id)
        match get_work_by_id s task.work_id with
        | some _ => ⟨true, s1, ev0 ++ [Event.notifScheduled task_id]⟩
        | none => ⟨true, s1, ev0⟩

/-- update_task_due_date_in_calendar from src/core/scheduling.py: if the
task has a mirror, push the new due date remotely (failure only logged),
then update the local due date; returns True when the local row exists. -/
def update_task_due_date_in_calendar (env : Env) (s : Store) (task_id : Nat)
    (new_due : Int) : RunResult :=
  match get_task_by_id s task_id with
  | none => ⟨false, s, []⟩
  | some task =>
    let ev := match task.calendar_event_id with
      | some m => [Event.remoteDueUpdate m (env.updateOk m)]
      | none => []
    let s1 := update_task_due_date s task_id new_due
    ⟨true, s1, ev⟩

/-- reschedule_task from src/core/scheduling.py: delegates to
update_task_due_date_in_calendar. -/
def reschedule_task (env : Env) (s : Store) (task_id : Nat) (new_due : Int) :
    RunResult :=
  update_task_due_date_in_calendar env s task_id new_due

/-- complete_task_and_schedule_next from src/core/scheduling.py: mark the
task Completed locally, mirror the completion remotely when a mirror
exists, send a task-completed notification, then either set the first
remaining incomplete task of the work to Tracked and ensure it is
scheduled, or — when none remains — mark the work Completed and send a
work-completed notification. -/
def complete_task_and_schedule_next (env : Env) (now : Int) (s : Store)
    (task_id : Nat) : RunResult :=
  match get_task_by_id s task_id with
  | none => ⟨false, s, []⟩
  | some task =>
    match get_work_by_id s task.work_id with
    | none => ⟨false, s, []⟩
    | some work =>
      let s1 := update_task_status s task_id TaskStatus.COMPLETED
      let ev1 := match task.calendar_event_id with
        | some m => [Event.remoteComplete m]
        | none => []
      let ev2 := ev1 ++ [Event.notifTaskCompleted task_id]
      match list_tasks s1 work.id true with
      | next_task :: _ =>
        let s2 := update_task_status s1 next_task.id TaskStatus.TRACKED
        let r := ensure_task_scheduled env now s2 next_task.id (some work.title)
        ⟨true, r.store, ev2 ++ r.events⟩
      | [] =>
        let s2 := update_work_status s1 work.id WorkStatus.COMPLETED
        ⟨true, s2, ev2 ++ [Event.notifWorkCompleted work.id]⟩

/-- sync_from_google_tasks from src/core/scheduling.py: fetch the remote
mirror; if it reports status completed and the local status string is
not "Completed", set the local status to Completed; if the remote
resource carries a due value different from the local one, overwrite the
local due date with it. -/
def sync_from_google_tasks (env : Env) (s : Store) (task_id : Nat) : RunResult :=
  match get_task_by_id s task_id with
  | none => ⟨false, s, []⟩
  | some task =>
    match task.calendar_event_id with
    | none => ⟨false, s, []⟩
    | some m =>
      match env.getTask m with
      | none => ⟨false, s, []⟩
      | some g =>
        let s1 := if g.status = "completed" ∧ task.status ≠ "Completed" then
            update_task_status s task_id TaskStatus.COMPLETED
          else s
        let s2 := match g.due with
          | some d => if task.due_date ≠ some d then
              update_task_due_date s1 task_id d
            else s1
          | none => s1
        ⟨true, s2, []⟩

/-- DueDateManager.set_due_date from src/core/due_dates.py: check the
task exists, then delegate to reschedule_task (the source tag is only
logged). -/
def set_due_date (env : Env) (s : Store) (task_id : Nat) (new_due : Int)
    (source : String) : RunResult :=
  match get_task_by_id s task_id with
  | none => ⟨false, s, []⟩
  | some _ =>
    let _ := source
    reschedule_task env s task_id new_due

/-- DueDateManager.snooze_task from src/core/due_dates.py: move the due
date forward by `days` from the current due date (or from now when
absent), increment the snooze counter, re-read the task and send a
followup advisory when the counter is at least 3 and the owning work
exists. -/
def snooze_task (env : Env) (now : Int) (s : Store) (task_id : Nat)
    (days : Int) : RunResult :=
  match get_task_by_id s task_id with
  | none => ⟨false, s, []⟩
  | some task =>
    let current_due := task.due_date.getD now
    let new_due := current_due + days * 86400
    let r := set_due_date env s task_id new_due "snooze"
    if ¬ r.ok then ⟨false, r.store, r.events⟩
    else
      let s2 := increment_task_snooze r.store task_id
      match get_task_by_id s2 task_id with
      | some task2 =>
        if task2.snooze_count ≥ 3 ∧ (get_work_by_id s2 task2.work_id).isSome then
          ⟨true, s2, r.events ++ [Event.notifSnoozeFollowup task_id]⟩
        else ⟨true, s2, r.events⟩
      | none => ⟨true, s2, r.events⟩

/-- DueDateManager.normalize_due_date from src/core/due_dates.py: clamp
a due date more than one day in the past to now + 1 day; otherwise pass
it through unchanged. -/
def normalize_due_date (now due : Int) : Int :=
  if due < now - 86400 then now + 86400 else due

/-- DueDateManager.resolve_conflict from src/core/due_dates.py: when one
side is absent the present one wins; when both are present and less than
60 seconds apart, local wins; otherwise remote wins for source "sync"
and local for any other source. The task id is only logged. -/
def resolve_conflict (task_id : Nat) (local_due remote_due : Option Int)
    (source : String) : Option Int :=
  let _ := task_id
  match local_due, remote_due with
  | none, none => none
  | none, some r => some r
  | some l, none => some l
  | some l, some r =>
    if (l - r).natAbs < 60 then some l
    else if source = "sync" then some r
    else some l

/-- One pass of the retry loop in GoogleTasksProvider.create_task
(src/core/tasks_provider.py): `oracle k` is the outcome of the k-th
attempt and `remaining` the number of attempts still allowed (including
the current one); after a failed attempt that is not the last the code
sleeps `2 * attempt` seconds. Returns the first success together with
the list of backoff sleeps performed. -/
def createRetryLoop (oracle : Nat → Option String) (attempt : Nat) :
    (remaining : Nat) → Option String × List Nat
  | 0 => (none, [])
  | remaining + 1 =>
    match oracle attempt with
    | some c => (some c, [])
    | none =>
      let rest := createRetryLoop oracle (attempt + 1) remaining
      if remaining > 0 then (rest.1, 2 * attempt :: rest.2)
      else (rest.1, rest.2)

/-- GoogleTasksProvider.create_task from src/core/tasks_provider.py:
when the service is initialized, up to 3 attempts (attempt numbers 1, 2,
3) with linear backoff; otherwise immediate failure. -/
def provider_create_task (service_ok : Bool) (oracle : Nat → Option String) :
    Option String × List Nat :=
  if service_ok then createRetryLoop oracle 1 3 else (none, [])

/-- GoogleTasksProvider.update_task from src/core/tasks_provider.py: a
single try/except around the fetch-modify-update call sequence — exactly
one attempt, no retry loop. -/
def provider_update_task (service_ok : Bool) (oracle : Nat → Option String) :
    Option String :=
  if service_ok then oracle 1 else none

/-- GoogleTasksProvider.delete_task from src/core/tasks_provider.py: a
single try/except around the delete call — exactly one attempt. -/
def provider_delete_task (service_ok : Bool) (oracle : Nat → Option String) :
    Bool :=
  if service_ok then (oracle 1).isSome else false

/-- GoogleTasksProvider.get_task from src/core/tasks_provider.py: a
single try/except around the get call — exactly one attempt. -/
def provider_get_task (service_ok : Bool) (oracle : Nat → Option String) :
    Option String :=
  if service_ok then oracle 1 else none

/-- Modelled from the spec: the "tomorrow 08:00" default due value the
spec prescribes for mirror creation — the start of the next UTC day plus
eight hours. -/
def spec_tomorrow_8am (now : Int) : Int :=
  86400 * (now / 86400 + 1) + 8 * 3600

section Helpers

/-- find? by id commutes with an id-preserving row map. -/
theorem find_task_map (l : List Task) (g : Task → Task)
    (hg : ∀ t, (g t).id = t.id) (i : Nat) :
    (l.map g).find? (fun t => t.id = i) = (l.find? (fun t => t.id = i)).map g := by
  induction l with
  | nil => rfl
  | cons x xs ih =>
    by_cases hx : x.id = i
    · rw [List.map_cons, List.find?_cons_of_pos, List.find?_cons_of_pos] <;>
        simp [hg, hx]
    · rw [List.map_cons, List.find?_cons_of_neg, List.find?_cons_of_neg, ih] <;>
        simp [hg, hx]

/-- Task lookup after a row update: the matching row is transformed, any
other lookup is unchanged. -/
theorem get_task_updateTaskRow (s : Store) (i j : Nat) (f : Task → Task)
    (hf : ∀ t, (f t).id = t.id) :
    get_task_by_id (updateTaskRow s i f) j =
      (get_task_by_id s j).map (fun t => if t.id = i then f t else t) := by
  unfold get_task_by_id updateTaskRow
  exact find_task_map s.tasks _ (fun t => by by_cases h : t.id = i <;> simp [h, hf]) j

/-- Work lookup is untouched by a task-row update. -/
theorem get_work_updateTaskRow (s : Store) (i : Nat) (f : Task → Task) (j : Nat) :
    get_work_by_id (updateTaskRow s i f) j = get_work_by_id s j := rfl

/-- Rows whose id differs from the updated one stay in the store
verbatim. -/
theorem mem_updateTaskRow_of_ne (s : Store) (i : Nat) (f : Task → Task)
    (u : Task) (hu : u ∈ s.tasks) (hne : u.id ≠ i) :
    u ∈ (updateTaskRow s i f).tasks := by
  unfold updateTaskRow
  exact List.mem_map.mpr ⟨u, hu, by simp [hne]⟩

/-- With unique ids, searching a list for a member's id finds that
member. -/
theorem find_of_mem_nodup (l : List Task) (hwf : (l.map Task.id).Nodup)
    (u : Task) (hu : u ∈ l) : l.find? (fun t => t.id = u.id) = some u := by
  induction l with
  | nil => cases hu
  | cons x xs ih =>
    have hwf' : (∀ y ∈ xs, ¬ y.id = x.id) ∧ (xs.map Task.id).Nodup := by
      simpa using hwf
    rcases List.mem_cons.mp hu with h | h
    · subst h; exact List.find?_cons_of_pos _ (by simp)
    · rw [List.find?_cons_of_neg _ (by
        simp only [decide_eq_true_eq]
        exact fun he => hwf'.1 u h he.symm)]
      exact ih hwf'.2 h

/-- With unique ids, looking up a member's id returns that member. -/
theorem get_task_of_mem_nodup (s : Store) (hwf : (s.tasks.map Task.id).Nodup)
    (u : Task) (hu : u ∈ s.tasks) : get_task_by_id s u.id = some u :=
  find_of_mem_nodup s.tasks hwf u hu

/-- Membership in the insertion step. -/
theorem mem_insertLe (le : Task → Task → Bool) (x : Task) (l : List Task) (a : Task) :
    a ∈ insertLe le x l ↔ a = x ∨ a ∈ l := by
  induction l with
  | nil => simp [insertLe]
  | cons y ys ih =>
    unfold insertLe
    by_cases h : le x y
    · simp [h]
    · simp [h, ih]
      tauto

/-- Membership is preserved by the insertion sort. -/
theorem mem_sortLe (le : Task → Task → Bool) (l : List Task) (a : Task) :
    a ∈ sortLe le l ↔ a ∈ l := by
  induction l with
  | nil => simp [sortLe]
  | cons x xs ih => simp [sortLe, mem_insertLe, ih]

/-- The sort of a list is empty exactly when the list is. -/
theorem sortLe_eq_nil_iff (le : Task → Task → Bool) (l : List Task) :
    sortLe le l = [] ↔ l = [] := by
  cases l with
  | nil => simp [sortLe]
  | cons x xs =>
    constructor
    · intro h
      have : x ∈ sortLe le (x :: xs) := (mem_sortLe le _ x).mpr (by simp)
      rw [h] at this
      cases this
    · intro h; cases h

/-- For a total transitive boolean order, the head of the insertion sort
is a minimum of the input list. -/
theorem sortLe_head_min (le : Task → Task → Bool)
    (htot : ∀ a b, le a b = true ∨ le b a = true)
    (htrans : ∀ a b c, le a b = true → le b c = true → le a c = true) :
    ∀ (l : List Task) (h : Task) (rest : List Task),
      sortLe le l = h :: rest → ∀ a ∈ l, le h a = true := by
  intro l
  induction l with
  | nil => intro h rest hs; cases hs
  | cons x xs ih =>
    intro h rest hs a ha
    have hrefl : ∀ b, le b b = true := fun b => (htot b b).elim id id
    rcases hsx : sortLe le xs with _ | ⟨h2, t2⟩
    · have hxs : xs = [] := (sortLe_eq_nil_iff le xs).mp hsx
      subst hxs
      simp only [sortLe, hsx, insertLe] at hs
      obtain ⟨hh, -⟩ := List.cons.inj hs
      rcases List.mem_cons.mp ha with hax | hax
      · rw [← hh, hax]; exact hrefl x
      · cases hax
    · have hmin2 : ∀ b ∈ xs, le h2 b = true := ih h2 t2 hsx
      simp only [sortLe, hsx, insertLe] at hs
      by_cases hc : le x h2 = true
      · rw [if_pos hc] at hs
        obtain ⟨hh, -⟩ := List.cons.inj hs
        rcases List.mem_cons.mp ha with hax | hax
        · rw [← hh, hax]; exact hrefl x
        · rw [← hh]; exact htrans _ _ _ hc (hmin2 a hax)
      · rw [if_neg hc] at hs
        obtain ⟨hh, -⟩ := List.cons.inj hs
        rcases List.mem_cons.mp ha with hax | hax
        · rw [← hh, hax]; exact (htot x h2).resolve_left hc
        · rw [← hh]; exact hmin2 a hax

/-- The SQL ordering key is total. -/
theorem taskOrderLE_total (a b : Task) :
    taskOrderLE a b = true ∨ taskOrderLE b a = true := by
  unfold taskOrderLE
  rcases a.due_date with _ | x <;> rcases b.due_date with _ | y <;>
    simp [decide_eq_true_eq] <;> omega

/-- The SQL ordering key is transitive. -/
theorem taskOrderLE_trans (a b c : Task) :
    taskOrderLE a b = true → taskOrderLE b c = true → taskOrderLE a c = true := by
  unfold taskOrderLE
  rcases a.due_date with _ | x <;> rcases b.due_date with _ | y <;>
    rcases c.due_date with _ | z <;> simp [decide_eq_true_eq] <;> omega

end Helpers

/-- Claim C6: resolve_conflict returns the present side when exactly one
of the due dates is present (for every source); returns local when both
are present and within 60 seconds; and when they differ by more than 60
seconds returns remote for source "sync" and local for any other
source. -/
theorem c6_resolve_conflict_cases (tid : Nat) (src : String) (l r : Int) :
    resolve_conflict tid none (some r) src = some r ∧
    resolve_conflict tid (some l) none src = some l ∧
    ((l - r).natAbs < 60 → resolve_conflict tid (some l) (some r) src = some l) ∧
    (60 < (l - r).natAbs → resolve_conflict tid (some l) (some r) "sync" = some r) ∧
    (60 < (l - r).natAbs → src ≠ "sync" →
      resolve_conflict tid (some l) (some r) src = some l) := by
  unfold resolve_conflict
  refine ⟨rfl, rfl, ?_, ?_, ?_⟩
  · intro h; simp [h]
  · intro h; simp [show ¬ (l - r).natAbs < 60 by omega]
  · intro h hsrc; simp [show ¬ (l - r).natAbs < 60 by omega, hsrc]

/-- Witness for C6 at the spec's concrete examples: D = 1000 epoch
seconds, remote 30 and 90 seconds later, sources "manual" and "sync". -/
theorem c6_resolve_conflict_cases_witness :
    resolve_conflict 1 none (some 1000) "manual" = some 1000 ∧
    resolve_conflict 1 (some 1000) (some 1030) "manual" = some 1000 ∧
    resolve_conflict 1 (some 1000) (some 1090) "manual" = some 1000 ∧
    resolve_conflict 1 (some 1000) (some 1090) "sync" = some 1090 :=
  ⟨(c6_resolve_conflict_cases 1 "manual" 0 1000).1,
   (c6_resolve_conflict_cases 1 "manual" 1000 1030).2.2.1 (by decide),
   (c6_resolve_conflict_cases 1 "manual" 1000 1090).2.2.2.2 (by decide) (by decide),
   (c6_resolve_conflict_cases 1 "sync" 1000 1090).2.2.2.1 (by decide)⟩

/-- Claim C10: set_due_date persists the supplied datetime exactly as
given — normalize_due_date is not applied on this path, so a due date
more than one day in the past (which normalize_due_date would clamp) is
stored unclamped. -/
theorem c10_set_due_date_unnormalized (env : Env) (now : Int) (s : Store)
    (tid : Nat) (d : Int) (src : String) (t : Task)
    (ht : get_task_by_id s tid = some t) :
    (set_due_date env s tid d src).ok = true ∧
    ((get_task_by_id (set_due_date env s tid d src).store tid).map Task.due_date
        = some (some d)) ∧
    (d < now - 86400 → normalize_due_date now d ≠ d) := by
  have hid : t.id = tid := by simpa using List.find?_some ht
  have hstore : set_due_date env s tid d src =
      ⟨true, update_task_due_date s tid d,
        match t.calendar_event_id with
        | some m => [Event.remoteDueUpdate m (env.updateOk m)]
        | none => []⟩ := by
    unfold set_due_date reschedule_task update_task_due_date_in_calendar
    rw [ht]
  refine ⟨by rw [hstore], ?_, ?_⟩
  · rw [hstore]
    show (get_task_by_id (update_task_due_date s tid d) tid).map Task.due_date
        = some (some d)
    unfold update_task_due_date
    rw [get_task_updateTaskRow s tid tid
      (fun t => { t with due_date := some d }) (fun _ => rfl), ht]
    simp [hid]
  · intro h
    unfold normalize_due_date
    rw [if_pos h]
    omega

/-- Concrete environment for the C10 witness: all remote calls fail. -/
def c10Env : Env := ⟨fun _ => none, fun _ _ _ _ => none, fun _ => false⟩

/-- Concrete task for the C10 witness. -/
def c10Task : Task := ⟨1, 100, "T", "Published", some 0, 0, none, 0⟩

/-- Concrete store for the C10 witness. -/
def c10Store : Store := ⟨[⟨100, "W", "Published"⟩], [c10Task]⟩

/-- Witness for C10: a due date 100000 seconds before epoch (far more
than one day before now = 0) is stored exactly, though normalize would
have clamped it. -/
theorem c10_set_due_date_unnormalized_witness :
    (set_due_date c10Env c10Store 1 (-100000) "manual").ok = true ∧
    ((get_task_by_id (set_due_date c10Env c10Store 1 (-100000) "manual").store 1).map
        Task.due_date = some (some (-100000))) ∧
    ((-100000 : Int) < 0 - 86400 → normalize_due_date 0 (-100000) ≠ -100000) :=
  c10_set_due_date_unnormalized c10Env 0 c10Store 1 (-100000) "manual" c10Task (by rfl)

/-- Claim C3 counterexample: with an oracle whose first attempt fails and
second succeeds, update_task returns failure — it makes a single attempt,
while create_task with the same oracle retries and succeeds. So not every
remote provider call makes up to 3 attempts. -/
theorem c3_counterexample :
    provider_update_task true (fun k => if k = 2 then some "x" else none) = none ∧
    (provider_create_task true (fun k => if k = 2 then some "x" else none)).1
      = some "x" := by
  constructor <;> rfl

/-- Claim C3 (amended): create_task makes up to 3 attempts with linear
backoff (sleeping 2·attempt seconds after each non-final failed attempt,
so [2, 4] on exhaustion) and returns none when all attempts fail;
update_task, delete_task and get_task make exactly one attempt and
return a failure value (none / false) when it fails; no failure path
returns a success value, and an uninitialized service fails
immediately. -/
theorem c3_retry_discipline (o : Nat → Option String) :
    (o 1 = none → o 2 = none → o 3 = none →
      provider_create_task true o = (none, [2, 4])) ∧
    (∀ c, o 1 = some c → provider_create_task true o = (some c, [])) ∧
    (∀ c, o 1 = none → o 2 = some c → provider_create_task true o = (some c, [2])) ∧
    (∀ c, o 1 = none → o 2 = none → o 3 = some c →
      provider_create_task true o = (some c, [2, 4])) ∧
    (provider_update_task true o = o 1) ∧
    (o 1 = none → provider_delete_task true o = false) ∧
    (o 1 = none → provider_get_task true o = none) ∧
    (provider_create_task false o = (none, []) ∧
      provider_update_task false o = none ∧
      provider_delete_task false o = false ∧
      provider_get_task false o = none) := by
  refine ⟨?_, ?_, ?_, ?_, rfl, ?_, ?_, rfl, rfl, rfl, rfl⟩
  · intro h1 h2 h3
    simp [provider_create_task, createRetryLoop, h1, h2, h3]
  · intro c h1
    simp [provider_create_task, createRetryLoop, h1]
  · intro c h1 h2
    simp [provider_create_task, createRetryLoop, h1, h2]
  · intro c h1 h2 h3
    simp [provider_create_task, createRetryLoop, h1, h2, h3]
  · intro h1
    simp [provider_delete_task, h1]
  · intro h1
    simp [provider_get_task, h1]

/-- Witness for C3 (amended) on an always-failing oracle: exhaustion
after three attempts with backoff sleeps [2, 4] and a typed failure. -/
theorem c3_retry_discipline_witness :
    provider_create_task true (fun _ => none) = (none, [2, 4]) ∧
    provider_update_task true (fun _ => none) = none ∧
    provider_delete_task true (fun _ => none) = false :=
  ⟨(c3_retry_discipline (fun _ => none)).1 rfl rfl rfl,
   (c3_retry_discipline (fun _ => none)).2.2.2.2.1,
   (c3_retry_discipline (fun _ => none)).2.2.2.2.2.1 rfl⟩

/-- Claim C4 (amended): when the remote push fails, reschedule_task
still updates the local due date and returns True — the very same
success result a fully successful run returns; the remote failure is
only recorded in the log (modelled by the event trace), not in the
returned value, so the caller cannot distinguish "applied locally,
mirror stale" from full success, and False is returned only when the
task does not exist. -/
theorem c4_reschedule_remote_failure_swallowed (env : Env) (s : Store)
    (tid : Nat) (d : Int) (t : Task) (m : String)
    (ht : get_task_by_id s tid = some t)
    (hm : t.calendar_event_id = some m)
    (hfail : env.updateOk m = false) :
    (reschedule_task env s tid d).ok = true ∧
    ((get_task_by_id (reschedule_task env s tid d).store tid).map Task.due_date
        = some (some d)) ∧
    (reschedule_task env s tid d).events = [Event.remoteDueUpdate m false] := by
  have hid : t.id = tid := by simpa using List.find?_some ht
  have hrun : reschedule_task env s tid d =
      ⟨true, update_task_due_date s tid d, [Event.remoteDueUpdate m (env.updateOk m)]⟩ := by
    unfold reschedule_task update_task_due_date_in_calendar
    rw [ht]
    simp only [hm]
  refine ⟨by rw [hrun], ?_, by rw [hrun, hfail]⟩
  rw [hrun]
  show (get_task_by_id (update_task_due_date s tid d) tid).map Task.due_date
      = some (some d)
  unfold update_task_due_date
  rw [get_task_updateTaskRow s tid tid
    (fun t => { t with due_date := some d }) (fun _ => rfl), ht]
  simp [hid]

/-- Concrete task for the C4 counterexample: it has a remote mirror. -/
def c4Task : Task := ⟨1, 100, "T", "Published", some 0, 0, some "m1", 0⟩

/-- Concrete store for the C4 counterexample. -/
def c4Store : Store := ⟨[⟨100, "W", "Published"⟩], [c4Task]⟩

/-- Environment whose remote due-date push always fails. -/
def c4EnvFail : Env := ⟨fun _ => none, fun _ _ _ _ => none, fun _ => false⟩

/-- Environment whose remote due-date push always succeeds. -/
def c4EnvOk : Env := ⟨fun _ => none, fun _ _ _ _ => none, fun _ => true⟩

/-- Claim C4 counterexample: the run whose remote push failed returns
the same boolean success value as the fully successful run (both True,
with the local due date updated), so the returned result does not
distinguish "applied locally but remote mirror is stale" from full
success, contrary to the claim. -/
theorem c4_counterexample :
    (reschedule_task c4EnvFail c4Store 1 500).ok = true ∧
    (reschedule_task c4EnvOk c4Store 1 500).ok = true ∧
    (reschedule_task c4EnvFail c4Store 1 500).ok
      = (reschedule_task c4EnvOk c4Store 1 500).ok ∧
    (get_task_by_id (reschedule_task c4EnvFail c4Store 1 500).store 1).map
        Task.due_date = some (some 500) := by
  refine ⟨rfl, rfl, rfl, rfl⟩

/-- Witness for C4 (amended) at the concrete failing environment. -/
theorem c4_reschedule_remote_failure_swallowed_witness :
    (reschedule_task c4EnvFail c4Store 1 500).ok = true ∧
    ((get_task_by_id (reschedule_task c4EnvFail c4Store 1 500).store 1).map
        Task.due_date = some (some 500)) ∧
    (reschedule_task c4EnvFail c4Store 1 500).events
      = [Event.remoteDueUpdate "m1" false] :=
  c4_reschedule_remote_failure_swallowed c4EnvFail c4Store 1 500 c4Task "m1"
    (by rfl) rfl rfl

/-- Concrete task for the C7 evaluation: no due date and no mirror. -/
def c7Task : Task := ⟨1, 100, "T1", "Published", none, 0, none, 0⟩

/-- Concrete store for the C7 evaluation. -/
def c7Store : Store := ⟨[⟨100, "W", "Published"⟩], [c7Task]⟩

/-- Environment for the C7 evaluation: remote creation succeeds. -/
def c7Env : Env := ⟨fun _ => none, fun _ _ _ _ => some "gid", fun _ => true⟩

/-- Claim C7 evaluation: with `utcnow` = 43200 (noon of day 0) and a
task without a due date, the due value the code sends to the provider is
now + 1 day + 8 hours = 158400 (20:00 of day 1), not the "tomorrow
08:00" value 115200 that the claim — and the code's own comment —
prescribe. -/
theorem c7_default_due_not_tomorrow_8am :
    (ensure_task_scheduled c7Env 43200 c7Store 1 none).events =
      [Event.remoteCreate "T1" "Work: W" 158400 "needsAction",
       Event.notifScheduled 1] ∧
    spec_tomorrow_8am 43200 = 115200 ∧
    (158400 : Int) ≠ 115200 := by
  refine ⟨rfl, rfl, by decide⟩

/-- Claim C8: when a task already has a remote mirror whose fetch
succeeds, ensure_task_scheduled returns success without touching the
store and with no events — in particular zero remote-create calls — and
a second call on the resulting store does exactly the same. -/
theorem c8_ensure_scheduled_idempotent (env : Env) (now : Int) (s : Store)
    (tid : Nat) (wt : Option String) (t : Task) (m : String)
    (ht : get_task_by_id s tid = some t)
    (hm : t.calendar_event_id = some m)
    (hg : (env.getTask m).isSome = true) :
    ensure_task_scheduled env now s tid wt = ⟨true, s, []⟩ ∧
    ensure_task_scheduled env now
        (ensure_task_scheduled env now s tid wt).store tid wt = ⟨true, s, []⟩ := by
  have h1 : ensure_task_scheduled env now s tid wt = ⟨true, s, []⟩ := by
    unfold ensure_task_scheduled
    rw [ht]
    simp [hm, hg]
  exact ⟨h1, by rw [h1]; exact h1⟩

/-- Concrete task for the C8 witness: it has mirror "m1". -/
def c8Task : Task := ⟨1, 100, "T", "Tracked", some 1000, 0, some "m1", 0⟩

/-- Concrete store for the C8 witness. -/
def c8Store : Store := ⟨[⟨100, "W", "Published"⟩], [c8Task]⟩

/-- Environment for the C8 witness: the mirror "m1" exists remotely. -/
def c8Env : Env :=
  ⟨fun m => if m = "m1" then some ⟨"needsAction", some 1000⟩ else none,
   fun _ _ _ _ => some "new", fun _ => true⟩

/-- Witness for C8 at a concrete store and provider. -/
theorem c8_ensure_scheduled_idempotent_witness :
    ensure_task_scheduled c8Env 0 c8Store 1 none = ⟨true, c8Store, []⟩ ∧
    ensure_task_scheduled c8Env 0
        (ensure_task_scheduled c8Env 0 c8Store 1 none).store 1 none
      = ⟨true, c8Store, []⟩ :=
  c8_ensure_scheduled_idempotent c8Env 0 c8Store 1 none c8Task "m1"
    (by rfl) rfl (by rfl)

/-- Status lookup through an id-preserving, status-preserving row
update is unchanged. -/
theorem status_updateTaskRow_preserve (s : Store) (i j : Nat) (f : Task → Task)
    (hf : ∀ t, (f t).id = t.id) (hst : ∀ t, (f t).status = t.status) :
    (get_task_by_id (updateTaskRow s i f) j).map Task.status
      = (get_task_by_id s j).map Task.status := by
  rw [get_task_updateTaskRow s i j f hf]
  cases get_task_by_id s j with
  | none => rfl
  | some t => by_cases h : t.id = i <;> simp [h, hst]

/-- Claim C1 (amended): when the remote mirror reports status
"completed" and the local status is not "Completed", sync_from_remote
only writes the Completed status (and possibly the remote due date)
into the local row; it does not invoke the complete operation — every
other task row is left verbatim in the store, the works are untouched,
and no notification or remote call is made, so no next task is set
Tracked or scheduled. -/
theorem c1_sync_completes_without_advancing (env : Env) (s : Store) (tid : Nat)
    (t : Task) (m : String) (g : RemoteTask)
    (ht : get_task_by_id s tid = some t)
    (hm : t.calendar_event_id = some m)
    (hg : env.getTask m = some g)
    (hc : g.status = "completed")
    (hnc : t.status ≠ "Completed") :
    (sync_from_google_tasks env s tid).ok = true ∧
    ((get_task_by_id (sync_from_google_tasks env s tid).store tid).map Task.status
      = some "Completed") ∧
    (∀ u ∈ s.tasks, u.id ≠ tid → u ∈ (sync_from_google_tasks env s tid).store.tasks) ∧
    ((sync_from_google_tasks env s tid).store.works = s.works) ∧
    ((sync_from_google_tasks env s tid).events = []) := by
  have hid : t.id = tid := by simpa using List.find?_some ht
  have hA : (get_task_by_id (update_task_status s tid TaskStatus.COMPLETED) tid).map
      Task.status = some "Completed" := by
    unfold update_task_status
    rw [get_task_updateTaskRow s tid tid
      (fun u => { u with status := TaskStatus.COMPLETED.str }) (fun _ => rfl), ht]
    simp [hid, TaskStatus.str]
  have key : ∀ s2 : Store,
      (s2 = update_task_status s tid TaskStatus.COMPLETED ∨
        ∃ d, s2 = update_task_due_date
          (update_task_status s tid TaskStatus.COMPLETED) tid d) →
      ((get_task_by_id s2 tid).map Task.status = some "Completed") ∧
      (∀ u ∈ s.tasks, u.id ≠ tid → u ∈ s2.tasks) ∧ s2.works = s.works := by
    rintro s2 (rfl | ⟨d, rfl⟩)
    · exact ⟨hA, fun u hu hne => mem_updateTaskRow_of_ne s tid _ u hu hne, rfl⟩
    · refine ⟨?_, ?_, rfl⟩
      · unfold update_task_due_date
        rw [status_updateTaskRow_preserve
            (update_task_status s tid TaskStatus.COMPLETED) tid tid
            (fun u => { u with due_date := some d }) (fun _ => rfl) (fun _ => rfl)]
        exact hA
      · intro u hu hne
        exact mem_updateTaskRow_of_ne _ tid _ u
          (mem_updateTaskRow_of_ne s tid _ u hu hne) hne
  rcases hdue : g.due with _ | d
  · have hrun : sync_from_google_tasks env s tid =
        ⟨true, update_task_status s tid TaskStatus.COMPLETED, []⟩ := by
      unfold sync_from_google_tasks
      rw [ht]
      simp only [hm, hg, hdue]
      rw [if_pos ⟨hc, hnc⟩]
    have hk := key (update_task_status s tid TaskStatus.COMPLETED) (Or.inl rfl)
    rw [hrun]
    exact ⟨rfl, hk.1, hk.2.1, hk.2.2, rfl⟩
  · by_cases hne : t.due_date ≠ some d
    · have hrun : sync_from_google_tasks env s tid =
          ⟨true, update_task_due_date
            (update_task_status s tid TaskStatus.COMPLETED) tid d, []⟩ := by
        unfold sync_from_google_tasks
        rw [ht]
        simp only [hm, hg, hdue]
        split_ifs with h1
        · rfl
        · exact absurd ⟨hc, hnc⟩ h1
      have hk := key _ (Or.inr ⟨d, rfl⟩)
      rw [hrun]
      exact ⟨rfl, hk.1, hk.2.1, hk.2.2, rfl⟩
    · have hrun : sync_from_google_tasks env s tid =
          ⟨true, update_task_status s tid TaskStatus.COMPLETED, []⟩ := by
        unfold sync_from_google_tasks
        rw [ht]
        simp only [hm, hg, hdue]
        split_ifs with h1
        · rfl
        · exact absurd ⟨hc, hnc⟩ h1
      have hk := key (update_task_status s tid TaskStatus.COMPLETED) (Or.inl rfl)
      rw [hrun]
      exact ⟨rfl, hk.1, hk.2.1, hk.2.2, rfl⟩

/-- Store for the C1 counterexample: one work with two published tasks,
the first mirrored remotely as "g1". -/
def c1Store : Store :=
  ⟨[⟨100, "W", "Published"⟩],
   [⟨1, 100, "T1", "Published", some 86400, 0, some "g1", 1⟩,
    ⟨2, 100, "T2", "Published", some 172800, 0, none, 2⟩]⟩

/-- Environment for the C1 counterexample: the mirror "g1" reports
completed remotely, creation succeeds. -/
def c1Env : Env :=
  ⟨fun m => if m = "g1" then some ⟨"completed", none⟩ else none,
   fun _ _ _ _ => some "g2", fun _ => true⟩

/-- Claim C1 counterexample: after sync_from_remote on task 1 (remote
completed, local Published) the next task 2 is still Published, whereas
an interactive complete on task 1 sets task 2 to Tracked — so
sync_from_remote does not apply the same complete operation. -/
theorem c1_counterexample :
    ((get_task_by_id (sync_from_google_tasks c1Env c1Store 1).store 1).map
        Task.status = some "Completed") ∧
    ((get_task_by_id (sync_from_google_tasks c1Env c1Store 1).store 2).map
        Task.status = some "Published") ∧
    ((get_task_by_id (complete_task_and_schedule_next c1Env 0 c1Store 1).store 2).map
        Task.status = some "Tracked") ∧
    (sync_from_google_tasks c1Env c1Store 1).events = [] := by
  refine ⟨rfl, rfl, rfl, rfl⟩

/-- Witness for C1 (amended) at the concrete counterexample store. -/
theorem c1_sync_completes_without_advancing_witness :
    (sync_from_google_tasks c1Env c1Store 1).ok = true ∧
    ((get_task_by_id (sync_from_google_tasks c1Env c1Store 1).store 1).map
        Task.status = some "Completed") ∧
    (∀ u ∈ c1Store.tasks, u.id ≠ 1 →
        u ∈ (sync_from_google_tasks c1Env c1Store 1).store.tasks) ∧
    ((sync_from_google_tasks c1Env c1Store 1).store.works = c1Store.works) ∧
    ((sync_from_google_tasks c1Env c1Store 1).events = []) :=
  c1_sync_completes_without_advancing c1Env c1Store 1
    ⟨1, 100, "T1", "Published", some 86400, 0, some "g1", 1⟩ "g1"
    ⟨"completed", none⟩ (by rfl) rfl (by rfl) rfl (by decide)

/-- Claim C5: snooze_task moves the due date to (current due, or now if
absent) plus N days, increments the snooze counter by exactly 1 — in
every environment, including one whose remote mirror update fails — and
emits exactly one advisory notification when the resulting counter is at
least 3, none otherwise. -/
theorem c5_snooze_increments_and_advises (env : Env) (now : Int) (s : Store)
    (tid : Nat) (days : Int) (t : Task)
    (ht : get_task_by_id s tid = some t)
    (hw : (get_work_by_id s t.work_id).isSome = true) :
    (snooze_task env now s tid days).ok = true ∧
    ((get_task_by_id (snooze_task env now s tid days).store tid).map Task.due_date
      = some (some (t.due_date.getD now + days * 86400))) ∧
    ((get_task_by_id (snooze_task env now s tid days).store tid).map Task.snooze_count
      = some (t.snooze_count + 1)) ∧
    ((snooze_task env now s tid days).events.countP Event.isSnoozeFollowup
      = if t.snooze_count + 1 ≥ 3 then 1 else 0) := by
  have hid : t.id = tid := by simpa using List.find?_some ht
  set nd := t.due_date.getD now + days * 86400 with hnd
  have hset : set_due_date env s tid nd "snooze" =
      ⟨true, update_task_due_date s tid nd,
        match t.calendar_event_id with
        | some m => [Event.remoteDueUpdate m (env.updateOk m)]
        | none => []⟩ := by
    unfold set_due_date reschedule_task update_task_due_date_in_calendar
    rw [ht]
  have hg1 : get_task_by_id (update_task_due_date s tid nd) tid =
      some { t with due_date := some nd } := by
    unfold update_task_due_date
    rw [get_task_updateTaskRow s tid tid
      (fun u => { u with due_date := some nd }) (fun _ => rfl), ht]
    simp [hid]
  have hg2 : get_task_by_id
      (increment_task_snooze (update_task_due_date s tid nd) tid) tid =
      some { t with due_date := some nd, snooze_count := t.snooze_count + 1 } := by
    unfold increment_task_snooze
    rw [get_task_updateTaskRow _ tid tid
      (fun u => { u with snooze_count := u.snooze_count + 1 }) (fun _ => rfl), hg1]
    simp [hid]
  have hwork : (get_work_by_id
      (increment_task_snooze (update_task_due_date s tid nd) tid) t.work_id).isSome
        = true := hw
  have hev0 : (match t.calendar_event_id with
      | some m => [Event.remoteDueUpdate m (env.updateOk m)]
      | none => ([] : List Event)).countP Event.isSnoozeFollowup = 0 := by
    rcases t.calendar_event_id with _ | m <;> rfl
  by_cases h3 : t.snooze_count + 1 ≥ 3
  · have hrun : snooze_task env now s tid days =
        ⟨true, increment_task_snooze (update_task_due_date s tid nd) tid,
          (match t.calendar_event_id with
           | some m => [Event.remoteDueUpdate m (env.updateOk m)]
           | none => []) ++ [Event.notifSnoozeFollowup tid]⟩ := by
      unfold snooze_task
      rw [ht]
      simp only [← hnd]
      rw [hset]
      simp only [hg2, eq_self_iff_true, not_true, if_false]
      rw [if_pos ⟨h3, hwork⟩]
    rw [hrun]
    refine ⟨rfl, ?_, ?_, ?_⟩
    · show (get_task_by_id (increment_task_snooze
        (update_task_due_date s tid nd) tid) tid).map Task.due_date = some (some nd)
      rw [hg2]
      rfl
    · show (get_task_by_id (increment_task_snooze
        (update_task_due_date s tid nd) tid) tid).map Task.snooze_count
          = some (t.snooze_count + 1)
      rw [hg2]
      rfl
    · rw [if_pos h3, List.countP_append, hev0]
      rfl
  · have hrun : snooze_task env now s tid days =
        ⟨true, increment_task_snooze (update_task_due_date s tid nd) tid,
          (match t.calendar_event_id with
           | some m => [Event.remoteDueUpdate m (env.updateOk m)]
           | none => [])⟩ := by
      unfold snooze_task
      rw [ht]
      simp only [← hnd]
      rw [hset]
      simp only [hg2, eq_self_iff_true, not_true, if_false]
      rw [if_neg (fun hcon => h3 hcon.1)]
    rw [hrun]
    refine ⟨rfl, ?_, ?_, ?_⟩
    · show (get_task_by_id (increment_task_snooze
        (update_task_due_date s tid nd) tid) tid).map Task.due_date = some (some nd)
      rw [hg2]
      rfl
    · show (get_task_by_id (increment_task_snooze
        (update_task_due_date s tid nd) tid) tid).map Task.snooze_count
          = some (t.snooze_count + 1)
      rw [hg2]
      rfl
    · rw [if_neg h3]
      exact hev0

/-- Environment for the C5 witness: the remote push fails. -/
def c5Env : Env := ⟨fun _ => none, fun _ _ _ _ => none, fun _ => false⟩

/-- Concrete task for the C5 witness: already snoozed twice and
mirrored as "m5". -/
def c5Task : Task := ⟨1, 100, "T", "Published", some 1000, 2, some "m5", 0⟩

/-- Concrete store for the C5 witness. -/
def c5Store : Store := ⟨[⟨100, "W", "Published"⟩], [c5Task]⟩

/-- Witness for C5: snoozing by 2 days with a failing remote mirror
still moves the due date to 1000 + 2·86400, bumps the counter from 2 to
3 and fires exactly one advisory. -/
theorem c5_snooze_increments_and_advises_witness :
    (snooze_task c5Env 0 c5Store 1 2).ok = true ∧
    ((get_task_by_id (snooze_task c5Env 0 c5Store 1 2).store 1).map Task.due_date
      = some (some ((c5Task.due_date.getD 0) + 2 * 86400))) ∧
    ((get_task_by_id (snooze_task c5Env 0 c5Store 1 2).store 1).map Task.snooze_count
      = some (c5Task.snooze_count + 1)) ∧
    ((snooze_task c5Env 0 c5Store 1 2).events.countP Event.isSnoozeFollowup
      = if c5Task.snooze_count + 1 ≥ 3 then 1 else 0) :=
  c5_snooze_increments_and_advises c5Env 0 c5Store 1 2 c5Task (by rfl) (by rfl)

/-- find? by id commutes with an id-preserving map on work rows. -/
theorem find_work_map (l : List Work) (g : Work → Work)
    (hg : ∀ x, (g x).id = x.id) (i : Nat) :
    (l.map g).find? (fun x => x.id = i) = (l.find? (fun x => x.id = i)).map g := by
  induction l with
  | nil => rfl
  | cons x xs ih =>
    by_cases hx : x.id = i
    · rw [List.map_cons, List.find?_cons_of_pos, List.find?_cons_of_pos] <;>
        simp [hg, hx]
    · rw [List.map_cons, List.find?_cons_of_neg, List.find?_cons_of_neg, ih] <;>
        simp [hg, hx]

/-- Filtering a mapped list is mapping the list filtered by the composed
predicate. -/
theorem filter_map_comm (p : Task → Bool) (g : Task → Task) (l : List Task) :
    (l.map g).filter p = (l.filter (fun x => p (g x))).map g := by
  induction l with
  | nil => rfl
  | cons x xs ih =>
    by_cases h : p (g x) = true <;> simp [List.filter_cons, h, ih]

/-- Filters by predicates agreeing on the list members are equal. -/
theorem filter_ext_mem (p q : Task → Bool) (l : List Task)
    (h : ∀ x ∈ l, p x = q x) : l.filter p = l.filter q := by
  induction l with
  | nil => rfl
  | cons x xs ih =>
    have hx := h x (by simp)
    by_cases hp : p x = true <;>
      simp [List.filter_cons, hp, ← hx, ih (fun y hy => h y (by simp [hy]))]

/-- Mapping a function that fixes every member of a list is the
identity on that list. -/
theorem map_id_of_mem (g : Task → Task) (l : List Task)
    (h : ∀ x ∈ l, g x = x) : l.map g = l := by
  induction l with
  | nil => rfl
  | cons x xs ih =>
    simp [h x (by simp), ih (fun y hy => h y (by simp [hy]))]

/-- Calendar-event updates do not change any task's status. -/
theorem status_update_calendar_preserve (s : Store) (i j : Nat) (e : Option String) :
    (get_task_by_id (update_task_calendar_event s i e) j).map Task.status
      = (get_task_by_id s j).map Task.status := by
  unfold update_task_calendar_event
  exact status_updateTaskRow_preserve s i j
    (fun u => { u with calendar_event_id := e }) (fun _ => rfl) (fun _ => rfl)

/-- ensure_task_scheduled changes no task's status. -/
theorem ensure_preserves_status (env : Env) (now : Int) (s : Store) (i : Nat)
    (wt : Option String) (j : Nat) :
    (get_task_by_id (ensure_task_scheduled env now s i wt).store j).map Task.status
      = (get_task_by_id s j).map Task.status := by
  unfold ensure_task_scheduled
  cases get_task_by_id s i with
  | none => rfl
  | some task =>
    dsimp only
    split
    · rfl
    · repeat' split
      all_goals first
        | rfl
        | exact status_update_calendar_preserve s i j _

/-- ensure_task_scheduled emits no work-completed notification. -/
theorem ensure_no_work_completed (env : Env) (now : Int) (s : Store) (i : Nat)
    (wt : Option String) :
    (ensure_task_scheduled env now s i wt).events.countP Event.isWorkCompleted = 0 := by
  unfold ensure_task_scheduled
  cases get_task_by_id s i with
  | none => rfl
  | some task =>
    dsimp only
    split
    · rfl
    · repeat' split
      all_goals rfl

/-- After marking a task Completed, the engine's incomplete-task query
for a work is the sort of the tasks of that work that are neither the
completed task nor already Completed. -/
theorem list_tasks_after_complete (s : Store) (tid : Nat) (wid : Nat) :
    list_tasks (update_task_status s tid TaskStatus.COMPLETED) wid true
      = sortLe taskOrderLE (s.tasks.filter
          (fun u => decide (u.work_id = wid ∧ u.id ≠ tid ∧ u.status ≠ "Completed"))) := by
  unfold list_tasks update_task_status updateTaskRow
  rw [filter_map_comm]
  rw [filter_ext_mem _
    (fun u => decide (u.work_id = wid ∧ u.id ≠ tid ∧ u.status ≠ "Completed")) s.tasks
    (fun x _ => by
      by_cases hx : x.id = tid <;> simp [hx, TaskStatus.str])]
  rw [map_id_of_mem _ _ (fun x hx => by
    have hdec := (List.mem_filter.mp hx).2
    simp only [decide_eq_true_eq] at hdec
    simp [hdec.2.1])]

/-- Claim C2: complete on a task whose work has no other incomplete
task marks the work Completed and emits exactly one work-completed
notification; complete on a task with another incomplete task in the
work emits no work-completed notification and sets exactly one other
task to Tracked, namely a task of the same work, not yet Completed,
minimal in the order "due date ascending with nulls first, then
creation time" among the work's remaining incomplete tasks, while every
other task's status is unchanged. -/
theorem c2_complete_advances_min_or_completes_work (env : Env) (now : Int)
    (s : Store) (tid : Nat) (t : Task) (w : Work)
    (hwf : (s.tasks.map Task.id).Nodup)
    (ht : get_task_by_id s tid = some t)
    (hw : get_work_by_id s t.work_id = some w) :
    (complete_task_and_schedule_next env now s tid).ok = true ∧
    ((∀ u ∈ s.tasks, u.work_id = w.id → u.id ≠ tid → u.status = "Completed") →
      ((get_work_by_id (complete_task_and_schedule_next env now s tid).store w.id).map
          Work.status = some "Completed") ∧
      (complete_task_and_schedule_next env now s tid).events.countP
          Event.isWorkCompleted = 1) ∧
    ((∃ u ∈ s.tasks, u.work_id = w.id ∧ u.id ≠ tid ∧ u.status ≠ "Completed") →
      (complete_task_and_schedule_next env now s tid).events.countP
          Event.isWorkCompleted = 0 ∧
      ∃ n ∈ s.tasks, n.work_id = w.id ∧ n.id ≠ tid ∧ n.status ≠ "Completed" ∧
        ((get_task_by_id (complete_task_and_schedule_next env now s tid).store n.id).map
            Task.status = some "Tracked") ∧
        (∀ u ∈ s.tasks, u.work_id = w.id → u.id ≠ tid →
            u.status ≠ "Completed" → taskOrderLE n u = true) ∧
        (∀ u ∈ s.tasks, u.id ≠ tid → u.id ≠ n.id →
            (get_task_by_id (complete_task_and_schedule_next env now s tid).store u.id).map
              Task.status = some u.status)) := by
  have hid : t.id = tid := by simpa using List.find?_some ht
  have hwid : w.id = t.work_id := by simpa using List.find?_some hw
  have hev2 : ((match t.calendar_event_id with
      | some m => [Event.remoteComplete m]
      | none => ([] : List Event)) ++ [Event.notifTaskCompleted tid]).countP
        Event.isWorkCompleted = 0 := by
    rcases t.calendar_event_id with _ | m <;> rfl
  rcases hsort : sortLe taskOrderLE (s.tasks.filter
      (fun u => decide (u.work_id = w.id ∧ u.id ≠ tid ∧ u.status ≠ "Completed")))
      with _ | ⟨n, rest⟩
  · -- no other incomplete task remains: the work is completed
    have hfq : s.tasks.filter
        (fun u => decide (u.work_id = w.id ∧ u.id ≠ tid ∧ u.status ≠ "Completed"))
          = [] := (sortLe_eq_nil_iff _ _).mp hsort
    have hrun : complete_task_and_schedule_next env now s tid =
        ⟨true, update_work_status (update_task_status s tid TaskStatus.COMPLETED) w.id
            WorkStatus.COMPLETED,
          ((match t.calendar_event_id with
            | some m => [Event.remoteComplete m]
            | none => []) ++ [Event.notifTaskCompleted tid])
            ++ [Event.notifWorkCompleted w.id]⟩ := by
      unfold complete_task_and_schedule_next
      rw [ht]
      simp only [hw]
      rw [list_tasks_after_complete, hsort]
    have hworkA : (get_work_by_id (update_work_status
        (update_task_status s tid TaskStatus.COMPLETED) w.id
          WorkStatus.COMPLETED) w.id).map Work.status = some "Completed" := by
      show ((s.works.map (fun x =>
          if x.id = w.id then { x with status := "Completed" } else x)).find?
            (fun x => x.id = w.id)).map Work.status = some "Completed"
      rw [find_work_map _ _
        (fun x => by by_cases h : x.id = w.id <;> simp [h]) w.id]
      have hfw : s.works.find? (fun x => x.id = w.id) = some w := by
        rw [hwid]; exact hw
      rw [hfw]
      simp
    rw [hrun]
    refine ⟨rfl, fun _ => ⟨hworkA, ?_⟩, ?_⟩
    · rw [List.countP_append, hev2]
      rfl
    · rintro ⟨u, hu, hwku, hneu, hncu⟩
      have : u ∈ s.tasks.filter
          (fun u => decide (u.work_id = w.id ∧ u.id ≠ tid ∧ u.status ≠ "Completed")) :=
        List.mem_filter.mpr ⟨hu, by simp [hwku, hneu, hncu]⟩
      rw [hfq] at this
      cases this
  · -- another incomplete task remains: the minimal one is set to Tracked
    have hnmem : n ∈ s.tasks.filter
        (fun u => decide (u.work_id = w.id ∧ u.id ≠ tid ∧ u.status ≠ "Completed")) := by
      have : n ∈ sortLe taskOrderLE (s.tasks.filter
          (fun u => decide (u.work_id = w.id ∧ u.id ≠ tid ∧ u.status ≠ "Completed"))) := by
        rw [hsort]; exact List.mem_cons_self n rest
      exact (mem_sortLe _ _ n).mp this
    have hnq : n.work_id = w.id ∧ n.id ≠ tid ∧ n.status ≠ "Completed" := by
      have := (List.mem_filter.mp hnmem).2
      simpa using this
    have hns : n ∈ s.tasks := (List.mem_filter.mp hnmem).1
    have hmin : ∀ a ∈ s.tasks.filter
        (fun u => decide (u.work_id = w.id ∧ u.id ≠ tid ∧ u.status ≠ "Completed")),
          taskOrderLE n a = true :=
      sortLe_head_min taskOrderLE taskOrderLE_total taskOrderLE_trans _ n rest hsort
    have hrun : complete_task_and_schedule_next env now s tid =
        ⟨true, (ensure_task_scheduled env now
            (update_task_status (update_task_status s tid TaskStatus.COMPLETED) n.id
              TaskStatus.TRACKED) n.id (some w.title)).store,
          ((match t.calendar_event_id with
            | some m => [Event.remoteComplete m]
            | none => []) ++ [Event.notifTaskCompleted tid])
            ++ (ensure_task_scheduled env now
                (update_task_status (update_task_status s tid TaskStatus.COMPLETED) n.id
                  TaskStatus.TRACKED) n.id (some w.title)).events⟩ := by
      unfold complete_task_and_schedule_next
      rw [ht]
      simp only [hw]
      rw [list_tasks_after_complete, hsort]
    have hgsn : get_task_by_id s n.id = some n := get_task_of_mem_nodup s hwf n hns
    have hgs1n : get_task_by_id
        (update_task_status s tid TaskStatus.COMPLETED) n.id = some n := by
      unfold update_task_status
      rw [get_task_updateTaskRow s tid n.id
        (fun u => { u with status := TaskStatus.COMPLETED.str }) (fun _ => rfl), hgsn]
      simp [hnq.2.1]
    have hgs2n : get_task_by_id
        (update_task_status (update_task_status s tid TaskStatus.COMPLETED) n.id
          TaskStatus.TRACKED) n.id = some { n with status := TaskStatus.TRACKED.str } := by
      unfold update_task_status
      rw [get_task_updateTaskRow _ n.id n.id
        (fun u => { u with status := TaskStatus.TRACKED.str }) (fun _ => rfl)]
      rw [show get_task_by_id (updateTaskRow s tid
          (fun u => { u with status := TaskStatus.COMPLETED.str })) n.id = some n
        from hgs1n]
      simp
    rw [hrun]
    refine ⟨rfl, ?_, fun _ => ⟨?_, n, hns, hnq.1, hnq.2.1, hnq.2.2, ?_, ?_, ?_⟩⟩
    · intro hall
      exfalso
      have : n.status = "Completed" := hall n hns hnq.1 hnq.2.1
      exact hnq.2.2 this
    · rw [List.countP_append, hev2, ensure_no_work_completed]
    · rw [ensure_preserves_status, hgs2n]
      rfl
    · intro u hu hwku hneu hncu
      exact hmin u (List.mem_filter.mpr ⟨hu, by simp [hwku, hneu, hncu]⟩)
    · intro u hu hneu hnen
      have hgu : get_task_by_id s u.id = some u := get_task_of_mem_nodup s hwf u hu
      have hg1u : get_task_by_id
          (update_task_status s tid TaskStatus.COMPLETED) u.id = some u := by
        unfold update_task_status
        rw [get_task_updateTaskRow s tid u.id
          (fun x => { x with status := TaskStatus.COMPLETED.str }) (fun _ => rfl), hgu]
        simp [hneu]
      have hg2u : get_task_by_id
          (update_task_status (update_task_status s tid TaskStatus.COMPLETED) n.id
            TaskStatus.TRACKED) u.id = some u := by
        unfold update_task_status
        rw [get_task_updateTaskRow _ n.id u.id
          (fun x => { x with status := TaskStatus.TRACKED.str }) (fun _ => rfl)]
        rw [show get_task_by_id (updateTaskRow s tid
            (fun x => { x with status := TaskStatus.COMPLETED.str })) u.id = some u
          from hg1u]
        simp [hnen]
      rw [ensure_preserves_status, hg2u]
      rfl

/-- Work row for the C2 witness. -/
def c2Work : Work := ⟨100, "W", "Published"⟩

/-- First task of the C2 witness work (due day 1). -/
def c2Task1 : Task := ⟨1, 100, "T1", "Published", some 86400, 0, none, 1⟩

/-- Second task of the C2 witness work (due day 2). -/
def c2Task2 : Task := ⟨2, 100, "T2", "Published", some 172800, 0, none, 2⟩

/-- Store for the C2 witness: one work with two published tasks. -/
def c2Store : Store := ⟨[c2Work], [c2Task1, c2Task2]⟩

/-- Environment for the C2 witness: remote creation succeeds. -/
def c2Env : Env := ⟨fun _ => none, fun _ _ _ _ => some "g", fun _ => true⟩

/-- Witness for C2: completing task 1 of a two-task work succeeds, emits
no work-completed notification, and (evaluating the run) sets task 2 to
Tracked. -/
theorem c2_complete_advances_min_or_completes_work_witness :
    (complete_task_and_schedule_next c2Env 0 c2Store 1).ok = true ∧
    (complete_task_and_schedule_next c2Env 0 c2Store 1).events.countP
        Event.isWorkCompleted = 0 ∧
    ((get_task_by_id (complete_task_and_schedule_next c2Env 0 c2Store 1).store 2).map
        Task.status = some "Tracked") :=
  ⟨(c2_complete_advances_min_or_completes_work c2Env 0 c2Store 1 c2Task1 c2Work
      (by decide) (by rfl) (by rfl)).1,
   ((c2_complete_advances_min_or_completes_work c2Env 0 c2Store 1 c2Task1 c2Work
      (by decide) (by rfl) (by rfl)).2.2
        ⟨c2Task2, by decide, by decide⟩).1,
   by rfl⟩

end TaskAssist
